import Mathlib

/-
Verification of the Oahu Sustainability Calculator scoring engine
(src/main.py).  The engine is embedded shallowly: Python floats are
modelled as exact rationals, Python `round` as round-half-to-even on
rationals, and operations that can raise (`ZeroDivisionError` in the
energy calculator and in the impact-breakdown division) return `Option`.
-/

/-- Python `round` on an exact rational: round half to even (banker's
rounding), as CPython does for `round(x)`. -/
def pyround (x : ℚ) : ℤ :=
  if x - ⌊x⌋ < 1/2 then ⌊x⌋
  else if 1/2 < x - ⌊x⌋ then ⌊x⌋ + 1
  else if ⌊x⌋ % 2 = 0 then ⌊x⌋ else ⌊x⌋ + 1

/-- Python `round(x, 1)`: round to one decimal place, half to even. -/
def pyround1 (x : ℚ) : ℚ :=
  (pyround (x * 10) : ℚ) / 10

/-- The final clamp `max(0, min(100, round(score)))` applied by every
category calculator. -/
def clamp100 (n : ℤ) : ℤ := max 0 (min 100 n)

lemma floor_le_pyround (x : ℚ) : ⌊x⌋ ≤ pyround x := by
  unfold pyround; split_ifs <;> omega

lemma pyround_le_floor_add_one (x : ℚ) : pyround x ≤ ⌊x⌋ + 1 := by
  unfold pyround; split_ifs <;> omega

lemma pyround_intCast (n : ℤ) : pyround (n : ℚ) = n := by
  unfold pyround
  rw [Int.floor_intCast]
  rw [if_pos]
  simp only [sub_self]
  norm_num

lemma pyround_mono {x y : ℚ} (h : x ≤ y) : pyround x ≤ pyround y := by
  have hf : ⌊x⌋ ≤ ⌊y⌋ := Int.floor_mono h
  rcases lt_or_eq_of_le hf with hlt | heq
  · have h1 := pyround_le_floor_add_one x
    have h2 := floor_le_pyround y
    omega
  · unfold pyround
    rw [← heq]
    split_ifs <;> first | omega | linarith

lemma sub_half_le_pyround (x : ℚ) : x - 1/2 ≤ (pyround x : ℚ) := by
  have h1 : ((⌊x⌋ : ℤ) : ℚ) ≤ x := Int.floor_le x
  have h2 : x < (⌊x⌋ : ℚ) + 1 := Int.lt_floor_add_one x
  unfold pyround
  split_ifs <;> push_cast <;> linarith

lemma pyround_le_add_half (x : ℚ) : (pyround x : ℚ) ≤ x + 1/2 := by
  have h1 : ((⌊x⌋ : ℤ) : ℚ) ≤ x := Int.floor_le x
  have h2 : x < (⌊x⌋ : ℚ) + 1 := Int.lt_floor_add_one x
  unfold pyround
  split_ifs <;> push_cast <;> linarith

lemma pyround_add_int_even (x : ℚ) (n : ℤ) (hn : n % 2 = 0) :
    pyround (x + (n : ℚ)) = pyround x + n := by
  unfold pyround
  rw [Int.floor_add_int]
  have hfrac : x + (n : ℚ) - ((⌊x⌋ + n : ℤ) : ℚ) = x - (⌊x⌋ : ℚ) := by
    push_cast; ring
  rw [hfrac]
  have hmod : (⌊x⌋ + n) % 2 = ⌊x⌋ % 2 := by omega
  rw [hmod]
  split_ifs <;> omega

lemma clamp100_nonneg (n : ℤ) : 0 ≤ clamp100 n := by
  unfold clamp100; omega

lemma clamp100_le_hundred (n : ℤ) : clamp100 n ≤ 100 := by
  unfold clamp100; omega

lemma clamp100_mono {m n : ℤ} (h : m ≤ n) : clamp100 m ≤ clamp100 n := by
  unfold clamp100; omega

lemma clamp100_of_bounds {n : ℤ} (h0 : 0 ≤ n) (h1 : n ≤ 100) : clamp100 n = n := by
  unfold clamp100; omega

/-
Data model: the enumerated input fields of the questionnaire, the
`UserProfile` record, and the static Oahu environmental-factor table
(`get_oahu_environmental_factors` in src/main.py).
-/

/-- The five vehicle classes of the `car_type` selectbox. -/
inductive CarType where
  | ev          -- "Electric vehicle"
  | hybrid      -- "Hybrid vehicle"
  | smallGas    -- "Small gas car (30+ mpg)"
  | mediumGas   -- "Medium gas car (20-30 mpg)"
  | largeGas    -- "Large gas car/SUV/truck (under 20 mpg)"
deriving DecidableEq

/-- The `renewable_energy` selectbox values. -/
inductive Renewable where
  | no          -- "No"
  | solar       -- "Yes - solar panels"
  | otherRenew  -- "Yes - other"
deriving DecidableEq

/-- The ordinal habit scale used by `recycling_habit` and
`single_use_plastics`. -/
inductive Habit where
  | never
  | rarely
  | sometimes
  | often
  | always
deriving DecidableEq

/-- The `water_conservation` multiselect options. -/
inductive ConservationMeasure where
  | lowFlow           -- "Low-flow showerheads/faucets"
  | dualFlush         -- "Dual-flush toilets"
  | rainwater         -- "Rainwater collection"
  | droughtResistant  -- "Drought-resistant landscaping"
  | noneOfTheAbove    -- "None of the above"
deriving DecidableEq

/-- The `diet_type` selectbox values. -/
inductive Diet where
  | vegan
  | vegetarian
  | pescatarian
  | flexitarian  -- "Flexitarian (mostly plant-based with occasional meat)"
  | omnivore     -- "Omnivore (regular meat consumption)"
deriving DecidableEq

/-- The flat `user_data` record collected by the input form. -/
structure UserProfile where
  car_usage : ℚ
  car_type : CarType
  public_transport_usage : ℚ
  flight_hours : ℚ
  household_size : ℤ
  electricity_bill : ℚ
  renewable_energy : Renewable
  air_conditioning : ℚ
  shower_length : ℚ
  shower_frequency : ℚ
  water_conservation : List ConservationMeasure
  recycling_habit : Habit
  composting : Bool
  single_use_plastics : Habit
  local_food : ℚ
  diet_type : Diet
  meals_out : ℚ
deriving DecidableEq

/-- A valid profile, per the spec data model (section 3): nonnegative
numeric fields, `household_size ≥ 1`, `electricity_bill > 0`,
`air_conditioning` in [0, 24] hours/day, `local_food` in [0, 100]. -/
def ValidProfile (u : UserProfile) : Prop :=
  0 ≤ u.car_usage ∧ 0 ≤ u.public_transport_usage ∧ 0 ≤ u.flight_hours ∧
  1 ≤ u.household_size ∧ 0 < u.electricity_bill ∧
  0 ≤ u.air_conditioning ∧ u.air_conditioning ≤ 24 ∧
  0 ≤ u.shower_length ∧ 0 ≤ u.shower_frequency ∧
  0 ≤ u.local_food ∧ u.local_food ≤ 100 ∧ 0 ≤ u.meals_out

instance (u : UserProfile) : Decidable (ValidProfile u) := by
  unfold ValidProfile; infer_instance

structure TransportFactors where
  traffic_congestion_factor : ℚ
  public_transport_quality : ℚ
  ev_grid_impact : ℚ
  avg_commute_distance : ℚ
deriving DecidableEq

structure EnergyFactors where
  electricity_cost : ℚ
  renewable_percentage : ℚ
  fossil_fuel_dependency : ℚ
  solar_potential : ℚ
deriving DecidableEq

structure WaterFactors where
  freshwater_scarcity : ℚ
  rainfall_variation : ℚ
  groundwater_stress : ℚ
  avg_consumption : ℚ
deriving DecidableEq

structure WasteFactors where
  limited_landfill_space : ℚ
  recycling_infrastructure : ℚ
  marine_debris_impact : ℚ
  waste_to_energy : ℚ
deriving DecidableEq

structure CarbonFactors where
  island_multiplier : ℚ
  tourism_impact : ℚ
  baseline_emissions : ℚ
deriving DecidableEq

/-- The nested environmental-factor table. -/
structure EnvironmentalFactors where
  transport : TransportFactors
  energy : EnergyFactors
  water : WaterFactors
  waste : WasteFactors
  carbon : CarbonFactors
  food_import_dependency : ℚ
  food_local_agriculture_capacity : ℚ
  food_fishing_sustainability : ℚ
  food_price_factor : ℚ
deriving DecidableEq

/-- `get_oahu_environmental_factors` from src/main.py. -/
def get_oahu_environmental_factors : EnvironmentalFactors :=
  { transport :=
      { traffic_congestion_factor := 8/10
        public_transport_quality := 6/10
        ev_grid_impact := 7/10
        avg_commute_distance := 111/10 }
    energy :=
      { electricity_cost := 34/100
        renewable_percentage := 35/100
        fossil_fuel_dependency := 65/100
        solar_potential := 9/10 }
    water :=
      { freshwater_scarcity := 7/10
        rainfall_variation := 7/10
        groundwater_stress := 6/10
        avg_consumption := 115 }
    waste :=
      { limited_landfill_space := 8/10
        recycling_infrastructure := 5/10
        marine_debris_impact := 9/10
        waste_to_energy := 7/10 }
    carbon :=
      { island_multiplier := 12/10
        tourism_impact := 3/10
        baseline_emissions := 169/10 }
    food_import_dependency := 85/100
    food_local_agriculture_capacity := 3/10
    food_fishing_sustainability := 6/10
    food_price_factor := 14/10 }

/-
Category calculators (src/main.py lines 303-474).
-/

/-- The `car_multipliers` lookup of `calculate_transport_impact`. -/
def car_multipliers : CarType → ℚ
  | .ev => 3/10
  | .hybrid => 6/10
  | .smallGas => 1
  | .mediumGas => 3/2
  | .largeGas => 2

/-- `calculate_transport_impact` (src/main.py lines 303-341). -/
def calculate_transport_impact (user_data : UserProfile)
    (oahu_factors : EnvironmentalFactors) : ℤ :=
  let base_score : ℚ := 100
  let car_impact := user_data.car_usage * car_multipliers user_data.car_type * (1/10)
  let base_score := base_score - car_impact
  let public_transport_benefit := min 25 (user_data.public_transport_usage * (3/2))
  let base_score := base_score + public_transport_benefit
  let flight_impact := user_data.flight_hours * (1/2)
  let base_score := base_score - flight_impact
  let base_score :=
    if 0 < user_data.car_usage ∧ user_data.car_type ≠ .ev ∧ user_data.car_type ≠ .hybrid
    then base_score - oahu_factors.transport.traffic_congestion_factor * 5
    else base_score
  clamp100 (pyround base_score)

/-- `calculate_energy_impact` (src/main.py lines 343-383).  The Python
division `electricity_bill / household_size` raises `ZeroDivisionError`
when `household_size == 0`; that failure is modelled as `none`. -/
def calculate_energy_impact (user_data : UserProfile)
    (oahu_factors : EnvironmentalFactors) : Option ℤ :=
  if user_data.household_size = 0 then none
  else
    let base_score : ℚ := 80
    let per_person_electricity := user_data.electricity_bill / (user_data.household_size : ℚ)
    let base_score :=
      if per_person_electricity < 50 then base_score + 15
      else if per_person_electricity < 75 then base_score + 10
      else if per_person_electricity < 100 then base_score + 5
      else if 150 < per_person_electricity then base_score - 10
      else if 125 < per_person_electricity then base_score - 5
      else base_score
    let base_score :=
      if user_data.renewable_energy = .solar then base_score + 20
      else if user_data.renewable_energy = .otherRenew then base_score + 15
      else base_score
    let ac_impact := user_data.air_conditioning * (12/10)
    let base_score := base_score - ac_impact
    let base_score := base_score - oahu_factors.energy.fossil_fuel_dependency * 5
    some (clamp100 (pyround base_score))

/-- `calculate_water_impact` (src/main.py lines 385-406). -/
def calculate_water_impact (user_data : UserProfile)
    (oahu_factors : EnvironmentalFactors) : ℤ :=
  let base_score : ℚ := 75
  let shower_impact := user_data.shower_length * user_data.shower_frequency * (1/5)
  let base_score := base_score - shower_impact
  let base_score :=
    if ConservationMeasure.noneOfTheAbove ∉ user_data.water_conservation
    then base_score + (user_data.water_conservation.length : ℚ) * 6
    else base_score
  let base_score := base_score - oahu_factors.water.freshwater_scarcity * 5
  clamp100 (pyround base_score)

/-- The `recycling_score_map` lookup of `calculate_waste_impact`. -/
def recycling_score_map : Habit → ℚ
  | .never => 0
  | .rarely => 5
  | .sometimes => 10
  | .often => 15
  | .always => 20

/-- The `plastic_score_map` lookup of `calculate_waste_impact`. -/
def plastic_score_map : Habit → ℚ
  | .never => 20
  | .rarely => 15
  | .sometimes => 5
  | .often => -5
  | .always => -15

/-- `calculate_waste_impact` (src/main.py lines 408-445). -/
def calculate_waste_impact (user_data : UserProfile)
    (oahu_factors : EnvironmentalFactors) : ℤ :=
  let base_score : ℚ := 60
  let base_score := base_score + recycling_score_map user_data.recycling_habit
  let base_score := if user_data.composting then base_score + 15 else base_score
  let base_score := base_score + plastic_score_map user_data.single_use_plastics
  let base_score := base_score + user_data.local_food * (1/10)
  let base_score := base_score - oahu_factors.waste.limited_landfill_space * 5
  clamp100 (pyround base_score)

/-- The `diet_score_map` lookup of `calculate_food_impact`. -/
def diet_score_map : Diet → ℚ
  | .vegan => 40
  | .vegetarian => 30
  | .pescatarian => 20
  | .flexitarian => 15
  | .omnivore => 0

/-- `calculate_food_impact` (src/main.py lines 447-474). -/
def calculate_food_impact (user_data : UserProfile)
    (oahu_factors : EnvironmentalFactors) : ℤ :=
  let base_score : ℚ := 50
  let base_score := base_score + diet_score_map user_data.diet_type
  let base_score := base_score + user_data.local_food * (3/20)
  let base_score := base_score - user_data.meals_out * (1/2)
  let base_score := base_score - oahu_factors.food_import_dependency * 5
  clamp100 (pyround base_score)

/-
Physical estimators (src/main.py lines 476-587).
-/

/-- The `car_emissions` lookup of `calculate_carbon_footprint`
(kg CO2 per mile). -/
def car_emissions : CarType → ℚ
  | .ev => 1/10
  | .hybrid => 2/10
  | .smallGas => 3/10
  | .mediumGas => 4/10
  | .largeGas => 6/10

/-- The `diet_emissions` lookup of `calculate_carbon_footprint`
(tons CO2 per year). -/
def diet_emissions : Diet → ℚ
  | .vegan => 3/2
  | .vegetarian => 2
  | .pescatarian => 5/2
  | .flexitarian => 3
  | .omnivore => 4

/-- `calculate_carbon_footprint` (src/main.py lines 476-536), as the
source accumulates it: term by term, then the island multiplier, then
the flat +5.0 baseline-living term, then `round(_, 1)`. -/
def calculate_carbon_footprint (user_data : UserProfile)
    (oahu_factors : EnvironmentalFactors) : ℚ :=
  let carbon_footprint : ℚ := 0
  let miles_per_year := user_data.car_usage * 52
  let carbon_footprint :=
    carbon_footprint + miles_per_year * car_emissions user_data.car_type / 1000
  let carbon_footprint := carbon_footprint + user_data.flight_hours * (2/10)
  let carbon_footprint := carbon_footprint + (user_data.electricity_bill / 100) * (8/10)
  let carbon_footprint :=
    if user_data.renewable_energy = .solar then carbon_footprint - 2
    else if user_data.renewable_energy = .otherRenew then carbon_footprint - 1
    else carbon_footprint
  let carbon_footprint := carbon_footprint + diet_emissions user_data.diet_type
  let carbon_footprint := carbon_footprint - (user_data.local_food / 100) * (1/2)
  let carbon_footprint :=
    if user_data.recycling_habit = .always then carbon_footprint - 1/2
    else if user_data.recycling_habit = .often then carbon_footprint - 3/10
    else carbon_footprint
  let carbon_footprint :=
    if user_data.composting then carbon_footprint - 3/10 else carbon_footprint
  let carbon_footprint := carbon_footprint * oahu_factors.carbon.island_multiplier
  let carbon_footprint := carbon_footprint + 5
  pyround1 carbon_footprint

/-- `calculate_water_usage` (src/main.py lines 538-563). -/
def calculate_water_usage (user_data : UserProfile)
    (oahu_factors : EnvironmentalFactors) : ℤ :=
  let shower_gallons := user_data.shower_length * (5/2)
  let shower_daily := shower_gallons * user_data.shower_frequency / 7
  let water_usage := shower_daily + 30 * (user_data.household_size : ℚ)
  let water_usage :=
    if ConservationMeasure.lowFlow ∈ user_data.water_conservation
    then water_usage * (8/10) else water_usage
  let water_usage :=
    if ConservationMeasure.dualFlush ∈ user_data.water_conservation
    then water_usage * (9/10) else water_usage
  let water_usage :=
    if ConservationMeasure.droughtResistant ∈ user_data.water_conservation
    then water_usage - 10 else water_usage
  pyround water_usage

/-- `calculate_waste_generation` (src/main.py lines 565-587). -/
def calculate_waste_generation (user_data : UserProfile)
    (oahu_factors : EnvironmentalFactors) : ℤ :=
  let base_waste := (9/2 : ℚ) * 7 * (user_data.household_size : ℚ)
  let base_waste :=
    if user_data.recycling_habit = .always then base_waste * (6/10)
    else if user_data.recycling_habit = .often then base_waste * (7/10)
    else if user_data.recycling_habit = .sometimes then base_waste * (85/100)
    else base_waste
  let base_waste := if user_data.composting then base_waste * (7/10) else base_waste
  let base_waste :=
    if user_data.single_use_plastics = .always then base_waste * (12/10)
    else if user_data.single_use_plastics = .never then base_waste * (8/10)
    else base_waste
  pyround base_waste

/-
Aggregator (src/main.py `calculate_impact`, lines 229-301).
-/

/-- The `impact_breakdown` mapping of the results dictionary. -/
structure ImpactBreakdown where
  transport : ℚ
  energy : ℚ
  water : ℚ
  waste : ℚ
  food : ℚ
deriving DecidableEq

/-- The results dictionary returned by `calculate_impact`. -/
structure ImpactResult where
  overall_score : ℤ
  transport_score : ℤ
  energy_score : ℤ
  water_score : ℤ
  waste_score : ℤ
  food_score : ℤ
  carbon_footprint : ℚ
  water_usage : ℤ
  waste_generation : ℤ
  impact_breakdown : ImpactBreakdown
deriving DecidableEq

/-- `calculate_impact` (src/main.py lines 229-301).  The two Python
failure points are modelled as `none`: the `ZeroDivisionError` inside
`calculate_energy_impact` when `household_size == 0`, and the
`ZeroDivisionError` in the `impact_breakdown` divisions when
`overall_score == 0`. -/
def calculate_impact (user_data : UserProfile) : Option ImpactResult :=
  let oahu_factors := get_oahu_environmental_factors
  let transport_score := calculate_transport_impact user_data oahu_factors
  match calculate_energy_impact user_data oahu_factors with
  | none => none
  | some energy_score =>
    let water_score := calculate_water_impact user_data oahu_factors
    let waste_score := calculate_waste_impact user_data oahu_factors
    let food_score := calculate_food_impact user_data oahu_factors
    let overall_raw : ℚ :=
      (transport_score : ℚ) * (25/100) + (energy_score : ℚ) * (25/100) +
      (water_score : ℚ) * (20/100) + (waste_score : ℚ) * (15/100) +
      (food_score : ℚ) * (15/100)
    let overall_score := pyround overall_raw
    if overall_score = 0 then none
    else
      some
        { overall_score := overall_score
          transport_score := transport_score
          energy_score := energy_score
          water_score := water_score
          waste_score := waste_score
          food_score := food_score
          carbon_footprint := calculate_carbon_footprint user_data oahu_factors
          water_usage := calculate_water_usage user_data oahu_factors
          waste_generation := calculate_waste_generation user_data oahu_factors
          impact_breakdown :=
            { transport := (25/100) * (transport_score : ℚ) / (overall_score : ℚ)
              energy := (25/100) * (energy_score : ℚ) / (overall_score : ℚ)
              water := (20/100) * (water_score : ℚ) / (overall_score : ℚ)
              waste := (15/100) * (waste_score : ℚ) / (overall_score : ℚ)
              food := (15/100) * (food_score : ℚ) / (overall_score : ℚ) } }

/-
Improvement-area selector (src/main.py `get_personalized_recommendations`,
lines 793-838): the construction of `areas_for_improvement`.
-/

/-- The `areas_for_improvement` list built by
`get_personalized_recommendations` (src/main.py lines 804-838). -/
def areas_for_improvement (impact_results : ImpactResult) : List String :=
  let areas := (if impact_results.transport_score < 60 then ["transportation"] else [])
  let areas := areas ++ (if impact_results.energy_score < 60 then ["energy"] else [])
  let areas := areas ++ (if impact_results.water_score < 60 then ["water"] else [])
  let areas := areas ++ (if impact_results.waste_score < 60 then ["waste"] else [])
  let areas := areas ++ (if impact_results.food_score < 60 then ["food"] else [])
  if areas = [] then
    let lowest_score :=
      min impact_results.transport_score
        (min impact_results.energy_score
          (min impact_results.water_score
            (min impact_results.waste_score impact_results.food_score)))
    if lowest_score = impact_results.transport_score then areas ++ ["transportation"]
    else if lowest_score = impact_results.energy_score then areas ++ ["energy"]
    else if lowest_score = impact_results.water_score then areas ++ ["water"]
    else if lowest_score = impact_results.waste_score then areas ++ ["waste"]
    else if lowest_score = impact_results.food_score then areas ++ ["food"]
    else areas
  else areas

/-
Spec-side descriptions, used by the refinement claims.
-/

/-- The additive/subtractive carbon terms of section 4.2 of the spec,
written as one algebraic sum: car, flight, electricity, renewable
deduction, diet constant, local-food deduction, recycling deduction,
composting deduction. -/
def carbon_footprint_terms (user_data : UserProfile) : ℚ :=
  user_data.car_usage * 52 * car_emissions user_data.car_type / 1000
  + user_data.flight_hours * (2/10)
  + (user_data.electricity_bill / 100) * (8/10)
  - (match user_data.renewable_energy with
      | .solar => 2 | .otherRenew => 1 | .no => 0)
  + diet_emissions user_data.diet_type
  - (user_data.local_food / 100) * (1/2)
  - (match user_data.recycling_habit with
      | .always => 1/2 | .often => 3/10 | _ => 0)
  - (if user_data.composting then 3/10 else 0)

/-- The fixed category iteration order of the selector. -/
def category_order : List String := ["transportation", "energy", "water", "waste", "food"]

/-- Score of a named category in an `ImpactResult`. -/
def category_score (impact_results : ImpactResult) (c : String) : ℤ :=
  if c = "transportation" then impact_results.transport_score
  else if c = "energy" then impact_results.energy_score
  else if c = "water" then impact_results.water_score
  else if c = "waste" then impact_results.waste_score
  else impact_results.food_score

/-- The first category (in the fixed order) holding the minimum score:
the spec's tie-break rule for the selector fallback. -/
def first_minimum_category (r : ImpactResult) : String :=
  if r.transport_score ≤ r.energy_score ∧ r.transport_score ≤ r.water_score ∧
     r.transport_score ≤ r.waste_score ∧ r.transport_score ≤ r.food_score
  then "transportation"
  else if r.energy_score ≤ r.water_score ∧ r.energy_score ≤ r.waste_score ∧
          r.energy_score ≤ r.food_score
  then "energy"
  else if r.water_score ≤ r.waste_score ∧ r.water_score ≤ r.food_score
  then "water"
  else if r.waste_score ≤ r.food_score
  then "waste"
  else "food"

/-- The selector as the spec words it (section 4.4): every category
scoring below 60 in the fixed order; if none, the single category
holding the minimum score, ties broken by the fixed order. -/
def areas_for_improvement_spec (r : ImpactResult) : List String :=
  let bad := category_order.filter (fun c => category_score r c < 60)
  if bad = [] then [first_minimum_category r] else bad

/-- Sum of the five `impact_breakdown` shares. -/
def breakdown_sum (r : ImpactResult) : ℚ :=
  r.impact_breakdown.transport + r.impact_breakdown.energy +
  r.impact_breakdown.water + r.impact_breakdown.waste + r.impact_breakdown.food

/-
Concrete profiles used by witnesses and counterexamples.
-/

/-- A representative valid profile (the input form's default values). -/
def sampleProfile : UserProfile :=
  { car_usage := 100
    car_type := .mediumGas
    public_transport_usage := 4
    flight_hours := 6
    household_size := 2
    electricity_bill := 200
    renewable_energy := .no
    air_conditioning := 6
    shower_length := 8
    shower_frequency := 7
    water_conservation := [.lowFlow]
    recycling_habit := .sometimes
    composting := false
    single_use_plastics := .sometimes
    local_food := 30
    diet_type := .omnivore
    meals_out := 4 }

/-- A valid profile whose weighted score sum is 77.2 while the rounded
`overall_score` is 77, so the breakdown shares sum to 386/385. -/
def breakdownProfile : UserProfile :=
  { car_usage := 0
    car_type := .ev
    public_transport_usage := 0
    flight_hours := 0
    household_size := 1
    electricity_bill := 50
    renewable_energy := .no
    air_conditioning := 0
    shower_length := 0
    shower_frequency := 0
    water_conservation := [.noneOfTheAbove]
    recycling_habit := .never
    composting := false
    single_use_plastics := .sometimes
    local_food := 0
    diet_type := .omnivore
    meals_out := 0 }

/-- An (out-of-range) profile driving all five category scores to 0,
hence `overall_score` to 0: `local_food` is negative and
`air_conditioning` exceeds 24 hours/day. -/
def zeroOverallProfile : UserProfile :=
  { car_usage := 10000
    car_type := .largeGas
    public_transport_usage := 0
    flight_hours := 0
    household_size := 1
    electricity_bill := 200
    renewable_energy := .no
    air_conditioning := 100
    shower_length := 30
    shower_frequency := 14
    water_conservation := [.noneOfTheAbove]
    recycling_habit := .never
    composting := false
    single_use_plastics := .always
    local_food := -410
    diet_type := .omnivore
    meals_out := 0 }

/-- A valid low-consumption profile whose energy score without solar is
92, within 20 of the 100 cap. -/
def billFortyProfile : UserProfile :=
  { car_usage := 0
    car_type := .ev
    public_transport_usage := 0
    flight_hours := 0
    household_size := 1
    electricity_bill := 40
    renewable_energy := .no
    air_conditioning := 0
    shower_length := 0
    shower_frequency := 0
    water_conservation := []
    recycling_habit := .never
    composting := false
    single_use_plastics := .sometimes
    local_food := 0
    diet_type := .omnivore
    meals_out := 0 }

/-- An invalid profile with an empty household. -/
def zeroHouseholdProfile : UserProfile :=
  { sampleProfile with household_size := 0 }

/-- Placeholder result used only to name the value inside a `some`. -/
def defaultImpact : ImpactResult :=
  { overall_score := 0
    transport_score := 0
    energy_score := 0
    water_score := 0
    waste_score := 0
    food_score := 0
    carbon_footprint := 0
    water_usage := 0
    waste_generation := 0
    impact_breakdown := { transport := 0, energy := 0, water := 0, waste := 0, food := 0 } }

/-- The result `calculate_impact` returns, when it returns one. -/
def impactOf (u : UserProfile) : ImpactResult :=
  (calculate_impact u).getD defaultImpact

/-
Helper lemmas: normal forms of the calculators and bounds.
-/

lemma le_clamp100_pyround {q : ℚ} {n : ℤ} (h : (n : ℚ) ≤ q) (hn : 0 ≤ n)
    (hn2 : n ≤ 100) : n ≤ clamp100 (pyround q) := by
  have hm := pyround_mono h
  rw [pyround_intCast] at hm
  unfold clamp100
  omega

lemma clamp100_pyround_le {q : ℚ} {n : ℤ} (h : q ≤ (n : ℚ)) (hn : 0 ≤ n)
    (hn2 : n ≤ 100) : clamp100 (pyround q) ≤ n := by
  have hm := pyround_mono h
  rw [pyround_intCast] at hm
  unfold clamp100
  omega

/-- The transport base score as one algebraic expression. -/
def transport_base (u : UserProfile) (F : EnvironmentalFactors) : ℚ :=
  100 - u.car_usage * car_multipliers u.car_type * (1/10)
  + min 25 (u.public_transport_usage * (3/2))
  - u.flight_hours * (1/2)
  - (if 0 < u.car_usage ∧ u.car_type ≠ .ev ∧ u.car_type ≠ .hybrid
     then F.transport.traffic_congestion_factor * 5 else 0)

lemma calculate_transport_impact_eq (u : UserProfile) (F : EnvironmentalFactors) :
    calculate_transport_impact u F = clamp100 (pyround (transport_base u F)) := by
  simp only [calculate_transport_impact, transport_base]
  congr 2
  split_ifs <;> ring

/-- The energy base score as one algebraic expression (defined when
`household_size ≠ 0`). -/
def energy_base (u : UserProfile) (F : EnvironmentalFactors) : ℚ :=
  80 + (if u.electricity_bill / (u.household_size : ℚ) < 50 then 15
        else if u.electricity_bill / (u.household_size : ℚ) < 75 then 10
        else if u.electricity_bill / (u.household_size : ℚ) < 100 then 5
        else if 150 < u.electricity_bill / (u.household_size : ℚ) then -10
        else if 125 < u.electricity_bill / (u.household_size : ℚ) then -5
        else 0)
  + (if u.renewable_energy = .solar then 20
     else if u.renewable_energy = .otherRenew then 15 else 0)
  - u.air_conditioning * (12/10)
  - F.energy.fossil_fuel_dependency * 5

lemma calculate_energy_impact_eq (u : UserProfile) (F : EnvironmentalFactors)
    (h : u.household_size ≠ 0) :
    calculate_energy_impact u F = some (clamp100 (pyround (energy_base u F))) := by
  simp only [calculate_energy_impact, energy_base]
  rw [if_neg h]
  congr 3
  split_ifs <;> ring

lemma calculate_energy_impact_bounds {u : UserProfile} {F : EnvironmentalFactors}
    {s : ℤ} (h : calculate_energy_impact u F = some s) : 0 ≤ s ∧ s ≤ 100 := by
  by_cases hz : u.household_size = 0
  · simp [calculate_energy_impact, hz] at h
  · rw [calculate_energy_impact_eq u F hz, Option.some_inj] at h
    subst h
    exact ⟨clamp100_nonneg _, clamp100_le_hundred _⟩

lemma recycling_score_map_nonneg (h : Habit) : 0 ≤ recycling_score_map h := by
  cases h <;> norm_num [recycling_score_map]

lemma plastic_score_map_ge (h : Habit) : -15 ≤ plastic_score_map h := by
  cases h <;> norm_num [plastic_score_map]

/-- For a valid profile the waste score is at least 41: the worst valid
case is never recycling, no composting, always single-use plastics, no
local food. -/
lemma waste_impact_ge_41 (u : UserProfile) (h0 : 0 ≤ u.local_food) :
    41 ≤ calculate_waste_impact u get_oahu_environmental_factors := by
  simp only [calculate_waste_impact]
  apply le_clamp100_pyround _ (by norm_num) (by norm_num)
  have hr := recycling_score_map_nonneg u.recycling_habit
  have hp := plastic_score_map_ge u.single_use_plastics
  push_cast
  split_ifs <;> norm_num [get_oahu_environmental_factors] <;> linarith

lemma pyround_le_of_le {q : ℚ} {n : ℤ} (h : q ≤ (n : ℚ)) : pyround q ≤ n := by
  have hm := pyround_mono h
  rwa [pyround_intCast] at hm

lemma le_pyround_of_le {n : ℤ} {q : ℚ} (h : (n : ℚ) ≤ q) : n ≤ pyround q := by
  have hm := pyround_mono h
  rwa [pyround_intCast] at hm

/-- The exact weighted sum the aggregator rounds into `overall_score`,
given the energy score `es`. -/
def overall_raw_val (u : UserProfile) (es : ℤ) : ℚ :=
  (calculate_transport_impact u get_oahu_environmental_factors : ℚ) * (25/100) +
  (es : ℚ) * (25/100) +
  (calculate_water_impact u get_oahu_environmental_factors : ℚ) * (20/100) +
  (calculate_waste_impact u get_oahu_environmental_factors : ℚ) * (15/100) +
  (calculate_food_impact u get_oahu_environmental_factors : ℚ) * (15/100)

/-- The results dictionary `calculate_impact` builds when nothing
raises, with energy score `es`. -/
def mkImpactResult (u : UserProfile) (es : ℤ) : ImpactResult :=
  { overall_score := pyround (overall_raw_val u es)
    transport_score := calculate_transport_impact u get_oahu_environmental_factors
    energy_score := es
    water_score := calculate_water_impact u get_oahu_environmental_factors
    waste_score := calculate_waste_impact u get_oahu_environmental_factors
    food_score := calculate_food_impact u get_oahu_environmental_factors
    carbon_footprint := calculate_carbon_footprint u get_oahu_environmental_factors
    water_usage := calculate_water_usage u get_oahu_environmental_factors
    waste_generation := calculate_waste_generation u get_oahu_environmental_factors
    impact_breakdown :=
      { transport := (25/100) * (calculate_transport_impact u get_oahu_environmental_factors : ℚ) /
          (pyround (overall_raw_val u es) : ℚ)
        energy := (25/100) * (es : ℚ) / (pyround (overall_raw_val u es) : ℚ)
        water := (20/100) * (calculate_water_impact u get_oahu_environmental_factors : ℚ) /
          (pyround (overall_raw_val u es) : ℚ)
        waste := (15/100) * (calculate_waste_impact u get_oahu_environmental_factors : ℚ) /
          (pyround (overall_raw_val u es) : ℚ)
        food := (15/100) * (calculate_food_impact u get_oahu_environmental_factors : ℚ) /
          (pyround (overall_raw_val u es) : ℚ) } }

lemma calculate_impact_some (u : UserProfile) (es : ℤ)
    (hes : calculate_energy_impact u get_oahu_environmental_factors = some es)
    (hnz : pyround (overall_raw_val u es) ≠ 0) :
    calculate_impact u = some (mkImpactResult u es) := by
  simp only [calculate_impact, mkImpactResult, overall_raw_val, hes] at *
  rw [if_neg hnz]

lemma calculate_impact_none_of_zero (u : UserProfile) (es : ℤ)
    (hes : calculate_energy_impact u get_oahu_environmental_factors = some es)
    (hz : pyround (overall_raw_val u es) = 0) :
    calculate_impact u = none := by
  simp only [calculate_impact, overall_raw_val, hes] at *
  rw [if_pos hz]

/-- Master lemma: under a valid profile, no division raises, the overall
score is between 6 and 100, and `calculate_impact` returns the explicit
results record. -/
lemma impact_of_valid (u : UserProfile) (hu : ValidProfile u) :
    ∃ es, calculate_energy_impact u get_oahu_environmental_factors = some es ∧
      calculate_impact u = some (mkImpactResult u es) ∧
      6 ≤ pyround (overall_raw_val u es) ∧ pyround (overall_raw_val u es) ≤ 100 := by
  obtain ⟨h1, h2, h3, h4, h5, h6, h7, h8, h9, h10, h11, h12⟩ := hu
  have hh : u.household_size ≠ 0 := by omega
  refine ⟨clamp100 (pyround (energy_base u get_oahu_environmental_factors)),
    calculate_energy_impact_eq u get_oahu_environmental_factors hh, ?_⟩
  set es := clamp100 (pyround (energy_base u get_oahu_environmental_factors)) with hes
  have hesb : 0 ≤ es ∧ es ≤ 100 := ⟨clamp100_nonneg _, clamp100_le_hundred _⟩
  have ht : 0 ≤ calculate_transport_impact u get_oahu_environmental_factors ∧
      calculate_transport_impact u get_oahu_environmental_factors ≤ 100 := by
    rw [calculate_transport_impact_eq]
    exact ⟨clamp100_nonneg _, clamp100_le_hundred _⟩
  have hw : 0 ≤ calculate_water_impact u get_oahu_environmental_factors ∧
      calculate_water_impact u get_oahu_environmental_factors ≤ 100 := by
    unfold calculate_water_impact
    exact ⟨clamp100_nonneg _, clamp100_le_hundred _⟩
  have hwa : 41 ≤ calculate_waste_impact u get_oahu_environmental_factors :=
    waste_impact_ge_41 u h10
  have hwa2 : calculate_waste_impact u get_oahu_environmental_factors ≤ 100 := by
    unfold calculate_waste_impact
    exact clamp100_le_hundred _
  have hf : 0 ≤ calculate_food_impact u get_oahu_environmental_factors ∧
      calculate_food_impact u get_oahu_environmental_factors ≤ 100 := by
    unfold calculate_food_impact
    exact ⟨clamp100_nonneg _, clamp100_le_hundred _⟩
  have hlow : (6 : ℚ) ≤ overall_raw_val u es := by
    unfold overall_raw_val
    have c1 : ((calculate_transport_impact u get_oahu_environmental_factors : ℤ) : ℚ) ≥ 0 := by
      exact_mod_cast ht.1
    have c2 : ((es : ℤ) : ℚ) ≥ 0 := by exact_mod_cast hesb.1
    have c3 : ((calculate_water_impact u get_oahu_environmental_factors : ℤ) : ℚ) ≥ 0 := by
      exact_mod_cast hw.1
    have c4 : ((calculate_waste_impact u get_oahu_environmental_factors : ℤ) : ℚ) ≥ 41 := by
      exact_mod_cast hwa
    have c5 : ((calculate_food_impact u get_oahu_environmental_factors : ℤ) : ℚ) ≥ 0 := by
      exact_mod_cast hf.1
    linarith
  have hhigh : overall_raw_val u es ≤ 100 := by
    unfold overall_raw_val
    have c1 : ((calculate_transport_impact u get_oahu_environmental_factors : ℤ) : ℚ) ≤ 100 := by
      exact_mod_cast ht.2
    have c2 : ((es : ℤ) : ℚ) ≤ 100 := by exact_mod_cast hesb.2
    have c3 : ((calculate_water_impact u get_oahu_environmental_factors : ℤ) : ℚ) ≤ 100 := by
      exact_mod_cast hw.2
    have c4 : ((calculate_waste_impact u get_oahu_environmental_factors : ℤ) : ℚ) ≤ 100 := by
      exact_mod_cast hwa2
    have c5 : ((calculate_food_impact u get_oahu_environmental_factors : ℤ) : ℚ) ≤ 100 := by
      exact_mod_cast hf.2
    linarith
  have hlo : (6 : ℤ) ≤ pyround (overall_raw_val u es) :=
    le_pyround_of_le (by exact_mod_cast hlow)
  have hhi : pyround (overall_raw_val u es) ≤ (100 : ℤ) :=
    pyround_le_of_le (by exact_mod_cast hhigh)
  exact ⟨calculate_impact_some u es (calculate_energy_impact_eq u _ hh) (by omega), hlo, hhi⟩

lemma calculate_carbon_footprint_eq (u : UserProfile) (F : EnvironmentalFactors) :
    calculate_carbon_footprint u F =
      pyround1 (carbon_footprint_terms u * F.carbon.island_multiplier + 5) := by
  simp only [calculate_carbon_footprint, carbon_footprint_terms]
  cases u.renewable_energy <;> cases u.recycling_habit <;> cases u.composting <;> simp

lemma car_emissions_nonneg (c : CarType) : 0 ≤ car_emissions c := by
  cases c <;> norm_num [car_emissions]

lemma diet_emissions_ge (d : Diet) : 3/2 ≤ diet_emissions d := by
  cases d <;> norm_num [diet_emissions]

lemma carbon_terms_gt (u : UserProfile) (hu : ValidProfile u) :
    -9/5 < carbon_footprint_terms u := by
  obtain ⟨h1, h2, h3, h4, h5, h6, h7, h8, h9, h10, h11, h12⟩ := hu
  unfold carbon_footprint_terms
  have hcar : 0 ≤ u.car_usage * 52 * car_emissions u.car_type / 1000 := by
    have := car_emissions_nonneg u.car_type
    positivity
  have hdiet := diet_emissions_ge u.diet_type
  have hrenew : (match u.renewable_energy with
      | Renewable.solar => (2:ℚ) | Renewable.otherRenew => 1 | Renewable.no => 0) ≤ 2 := by
    cases u.renewable_energy <;> norm_num
  have hrec : (match u.recycling_habit with
      | Habit.always => (1:ℚ)/2 | Habit.often => 3/10 | _ => 0) ≤ 1/2 := by
    cases u.recycling_habit <;> norm_num
  have hcomp : (if u.composting then (3:ℚ)/10 else 0) ≤ 3/10 := by
    split_ifs <;> norm_num
  have hlocal : (u.local_food / 100) * (1/2) ≤ 1/2 := by linarith
  have helec : 0 < (u.electricity_bill / 100) * (8/10) := by positivity
  linarith

/-
Claim theorems.
-/

/-- Claim C6: `calculate_carbon_footprint` first accumulates all
additive and subtractive terms, multiplies the whole accumulated sum
once by the island multiplier (1.2 in the Oahu factor table), then adds
a flat +5.0 baseline-living term that is NOT multiplied, and rounds the
result to one decimal place. -/
theorem carbon_footprint_order_of_operations (u : UserProfile) (F : EnvironmentalFactors) :
    calculate_carbon_footprint u F =
      pyround1 (carbon_footprint_terms u * F.carbon.island_multiplier + 5) ∧
    get_oahu_environmental_factors.carbon.island_multiplier = 12/10 :=
  ⟨calculate_carbon_footprint_eq u F, rfl⟩

/-- Claim C10: for every valid profile the carbon footprint is strictly
positive, bounded below by 2.8 tons/year: the maximal deductions
(solar -2.0, vegan diet floor 1.5, local food -0.5, recycling -0.5,
composting -0.3) cannot drive the result, after the 1.2 island
multiplier and the +5.0 baseline term, to or below zero. -/
theorem carbon_footprint_strictly_positive (u : UserProfile) (hu : ValidProfile u) :
    14/5 ≤ calculate_carbon_footprint u get_oahu_environmental_factors ∧
    0 < calculate_carbon_footprint u get_oahu_environmental_factors := by
  have hterms := carbon_terms_gt u hu
  rw [calculate_carbon_footprint_eq]
  have hmul : get_oahu_environmental_factors.carbon.island_multiplier = 12/10 := rfl
  rw [hmul]
  unfold pyround1
  have h28 : (28:ℤ) ≤ pyround ((carbon_footprint_terms u * (12/10) + 5) * 10) := by
    apply le_pyround_of_le
    push_cast
    nlinarith [hterms]
  have h28q : (28:ℚ) ≤ (pyround ((carbon_footprint_terms u * (12/10) + 5) * 10) : ℚ) := by
    exact_mod_cast h28
  constructor <;> linarith

/-- Witness for C10 at the form's default profile. -/
theorem carbon_footprint_strictly_positive_witness :
    ValidProfile sampleProfile ∧
    (14/5 ≤ calculate_carbon_footprint sampleProfile get_oahu_environmental_factors ∧
     0 < calculate_carbon_footprint sampleProfile get_oahu_environmental_factors) :=
  ⟨by with_unfolding_all decide,
    carbon_footprint_strictly_positive sampleProfile (by with_unfolding_all decide)⟩

/-- Claim C1: for every valid profile, each of the five category scores
and the `overall_score` returned by `calculate_impact` is an integer in
[0, 100]. -/
theorem scores_and_overall_in_range (u : UserProfile) (hu : ValidProfile u) :
    ∃ r, calculate_impact u = some r ∧
      r.transport_score = calculate_transport_impact u get_oahu_environmental_factors ∧
      calculate_energy_impact u get_oahu_environmental_factors = some r.energy_score ∧
      r.water_score = calculate_water_impact u get_oahu_environmental_factors ∧
      r.waste_score = calculate_waste_impact u get_oahu_environmental_factors ∧
      r.food_score = calculate_food_impact u get_oahu_environmental_factors ∧
      0 ≤ r.transport_score ∧ r.transport_score ≤ 100 ∧
      0 ≤ r.energy_score ∧ r.energy_score ≤ 100 ∧
      0 ≤ r.water_score ∧ r.water_score ≤ 100 ∧
      0 ≤ r.waste_score ∧ r.waste_score ≤ 100 ∧
      0 ≤ r.food_score ∧ r.food_score ≤ 100 ∧
      0 ≤ r.overall_score ∧ r.overall_score ≤ 100 := by
  obtain ⟨es, hes, himp, hlo, hhi⟩ := impact_of_valid u hu
  refine ⟨mkImpactResult u es, himp, rfl, hes, rfl, rfl, rfl, ?_⟩
  have hesb := calculate_energy_impact_bounds hes
  have ht : 0 ≤ calculate_transport_impact u get_oahu_environmental_factors ∧
      calculate_transport_impact u get_oahu_environmental_factors ≤ 100 := by
    rw [calculate_transport_impact_eq]
    exact ⟨clamp100_nonneg _, clamp100_le_hundred _⟩
  have hw : 0 ≤ calculate_water_impact u get_oahu_environmental_factors ∧
      calculate_water_impact u get_oahu_environmental_factors ≤ 100 := by
    unfold calculate_water_impact
    exact ⟨clamp100_nonneg _, clamp100_le_hundred _⟩
  have hwa : 0 ≤ calculate_waste_impact u get_oahu_environmental_factors ∧
      calculate_waste_impact u get_oahu_environmental_factors ≤ 100 := by
    unfold calculate_waste_impact
    exact ⟨clamp100_nonneg _, clamp100_le_hundred _⟩
  have hf : 0 ≤ calculate_food_impact u get_oahu_environmental_factors ∧
      calculate_food_impact u get_oahu_environmental_factors ≤ 100 := by
    unfold calculate_food_impact
    exact ⟨clamp100_nonneg _, clamp100_le_hundred _⟩
  exact ⟨ht.1, ht.2, hesb.1, hesb.2, hw.1, hw.2, hwa.1, hwa.2, hf.1, hf.2,
    by simp only [mkImpactResult]; omega, by simp only [mkImpactResult]; omega⟩

set_option maxRecDepth 8000 in
/-- Witness for C1 at the form's default profile. -/
theorem scores_and_overall_in_range_witness :
    ValidProfile sampleProfile ∧
    (∃ r, calculate_impact sampleProfile = some r ∧
      r.transport_score = calculate_transport_impact sampleProfile get_oahu_environmental_factors ∧
      calculate_energy_impact sampleProfile get_oahu_environmental_factors = some r.energy_score ∧
      r.water_score = calculate_water_impact sampleProfile get_oahu_environmental_factors ∧
      r.waste_score = calculate_waste_impact sampleProfile get_oahu_environmental_factors ∧
      r.food_score = calculate_food_impact sampleProfile get_oahu_environmental_factors ∧
      0 ≤ r.transport_score ∧ r.transport_score ≤ 100 ∧
      0 ≤ r.energy_score ∧ r.energy_score ≤ 100 ∧
      0 ≤ r.water_score ∧ r.water_score ≤ 100 ∧
      0 ≤ r.waste_score ∧ r.waste_score ≤ 100 ∧
      0 ≤ r.food_score ∧ r.food_score ≤ 100 ∧
      0 ≤ r.overall_score ∧ r.overall_score ≤ 100) :=
  ⟨by with_unfolding_all decide,
    scores_and_overall_in_range sampleProfile (by with_unfolding_all decide)⟩

/-- Claim C9: for every valid profile the waste score is at least 41,
hence the overall score is at least 6 and strictly positive, so the
`impact_breakdown` division in `calculate_impact` never divides by
zero. -/
theorem waste_floor_keeps_overall_positive (u : UserProfile) (hu : ValidProfile u) :
    41 ≤ calculate_waste_impact u get_oahu_environmental_factors ∧
    ∃ r, calculate_impact u = some r ∧ 6 ≤ r.overall_score ∧ 0 < r.overall_score := by
  obtain ⟨es, hes, himp, hlo, hhi⟩ := impact_of_valid u hu
  refine ⟨waste_impact_ge_41 u hu.2.2.2.2.2.2.2.2.2.1, mkImpactResult u es, himp, ?_, ?_⟩ <;>
    simp only [mkImpactResult] <;> omega

set_option maxRecDepth 8000 in
/-- Witness for C9 at the form's default profile. -/
theorem waste_floor_keeps_overall_positive_witness :
    ValidProfile sampleProfile ∧
    (41 ≤ calculate_waste_impact sampleProfile get_oahu_environmental_factors ∧
     ∃ r, calculate_impact sampleProfile = some r ∧ 6 ≤ r.overall_score ∧ 0 < r.overall_score) :=
  ⟨by with_unfolding_all decide,
    waste_floor_keeps_overall_positive sampleProfile (by with_unfolding_all decide)⟩

lemma car_multipliers_nonneg (c : CarType) : 0 ≤ car_multipliers c := by
  cases c <;> norm_num [car_multipliers]

lemma transport_base_antitone (u : UserProfile) (c1 c2 : ℚ) (h0 : 0 ≤ c1) (h12 : c1 ≤ c2) :
    transport_base { u with car_usage := c2 } get_oahu_environmental_factors ≤
    transport_base { u with car_usage := c1 } get_oahu_environmental_factors := by
  simp only [transport_base]
  have hm := car_multipliers_nonneg u.car_type
  have hcar : c1 * car_multipliers u.car_type * (1/10) ≤
      c2 * car_multipliers u.car_type * (1/10) := by nlinarith
  have htc : (0:ℚ) ≤ get_oahu_environmental_factors.transport.traffic_congestion_factor * 5 := by
    norm_num [get_oahu_environmental_factors]
  by_cases hP : u.car_type ≠ CarType.ev ∧ u.car_type ≠ CarType.hybrid
  · by_cases h1 : 0 < c1
    · rw [if_pos ⟨lt_of_lt_of_le h1 h12, hP.1, hP.2⟩, if_pos ⟨h1, hP.1, hP.2⟩]
      linarith
    · by_cases h2 : 0 < c2
      · rw [if_pos ⟨h2, hP.1, hP.2⟩, if_neg (fun hc => h1 hc.1)]
        linarith
      · rw [if_neg (fun hc => h2 hc.1), if_neg (fun hc => h1 hc.1)]
        linarith
  · rw [if_neg (fun hc => hP ⟨hc.2.1, hc.2.2⟩), if_neg (fun hc => hP ⟨hc.2.1, hc.2.2⟩)]
    linarith

/-- Claim C5: with the vehicle class and all other fields held fixed,
the transport score is weakly decreasing in `car_usage`. -/
theorem transport_score_antitone_in_car_usage (u : UserProfile) (c1 c2 : ℚ)
    (hu : ValidProfile u) (h0 : 0 ≤ c1) (h12 : c1 ≤ c2) :
    calculate_transport_impact { u with car_usage := c2 } get_oahu_environmental_factors ≤
    calculate_transport_impact { u with car_usage := c1 } get_oahu_environmental_factors := by
  rw [calculate_transport_impact_eq, calculate_transport_impact_eq]
  exact clamp100_mono (pyround_mono (transport_base_antitone u c1 c2 h0 h12))

/-- Witness for C5: driving 200 instead of 100 miles per week cannot
raise the default profile's transport score. -/
theorem transport_score_antitone_witness :
    ValidProfile sampleProfile ∧ (0:ℚ) ≤ 100 ∧ (100:ℚ) ≤ 200 ∧
    calculate_transport_impact { sampleProfile with car_usage := 200 } get_oahu_environmental_factors ≤
    calculate_transport_impact { sampleProfile with car_usage := 100 } get_oahu_environmental_factors :=
  ⟨by with_unfolding_all decide, by norm_num, by norm_num,
    transport_score_antitone_in_car_usage sampleProfile 100 200
      (by with_unfolding_all decide) (by norm_num) (by norm_num)⟩

lemma energy_base_solar_shift (u : UserProfile) (F : EnvironmentalFactors)
    (hr : u.renewable_energy = .no) :
    energy_base { u with renewable_energy := .solar } F = energy_base u F + 20 := by
  simp only [energy_base, hr, if_true]
  rw [if_neg (by decide : ¬ (Renewable.no = Renewable.solar)),
    if_neg (by decide : ¬ (Renewable.no = Renewable.otherRenew))]
  ring

lemma energy_base_bounds_no_renewable (u : UserProfile)
    (hac0 : 0 ≤ u.air_conditioning) (hac24 : u.air_conditioning ≤ 24)
    (hr : u.renewable_energy = .no) :
    759/20 ≤ energy_base u get_oahu_environmental_factors ∧
    energy_base u get_oahu_environmental_factors ≤ 367/4 := by
  have hf : get_oahu_environmental_factors.energy.fossil_fuel_dependency = 65/100 := rfl
  simp only [energy_base, hr, hf]
  rw [if_neg (by decide : ¬ (Renewable.no = Renewable.solar)),
    if_neg (by decide : ¬ (Renewable.no = Renewable.otherRenew))]
  split_ifs <;> constructor <;> linarith

/-- Counterexample to claim C4 as stated: for the valid profile
`billFortyProfile` (one resident, 40-dollar bill, no AC), switching
`renewable_energy` from "No" to "Yes - solar panels" moves the energy
score from 92 only to the 100 cap, an increase of 8, not 20. -/
theorem solar_switch_not_plus_twenty :
    ValidProfile billFortyProfile ∧
    billFortyProfile.renewable_energy = Renewable.no ∧
    calculate_energy_impact billFortyProfile get_oahu_environmental_factors = some 92 ∧
    calculate_energy_impact { billFortyProfile with renewable_energy := Renewable.solar }
      get_oahu_environmental_factors = some 100 ∧
    (100 - 92 : ℤ) ≠ 20 := by
  refine ⟨?_, ?_, ?_, ?_, ?_⟩ <;> with_unfolding_all decide

/-- Claim C4 amended: switching `renewable_energy` from "No" to
"Yes - solar panels", all else equal, raises the energy score `s` to
exactly `min 100 (s + 20)`: an increase of exactly 20 whenever the +20
does not push the rounded score past the 100 clamp, and to exactly 100
otherwise. -/
theorem solar_switch_adds_twenty_up_to_cap (u : UserProfile) (hu : ValidProfile u)
    (hr : u.renewable_energy = Renewable.no) (s : ℤ)
    (hs : calculate_energy_impact u get_oahu_environmental_factors = some s) :
    calculate_energy_impact { u with renewable_energy := Renewable.solar }
      get_oahu_environmental_factors = some (min 100 (s + 20)) := by
  have hh : u.household_size ≠ 0 := by
    have := hu.2.2.2.1
    omega
  rw [calculate_energy_impact_eq u _ hh, Option.some_inj] at hs
  rw [calculate_energy_impact_eq { u with renewable_energy := Renewable.solar }
    get_oahu_environmental_factors hh, energy_base_solar_shift u _ hr]
  obtain ⟨hb1, hb2⟩ := energy_base_bounds_no_renewable u hu.2.2.2.2.2.1 hu.2.2.2.2.2.2.1 hr
  have hp1 := sub_half_le_pyround (energy_base u get_oahu_environmental_factors)
  have hp2 := pyround_le_add_half (energy_base u get_oahu_environmental_factors)
  have hlo : (37:ℤ) < pyround (energy_base u get_oahu_environmental_factors) := by
    have hq : (37:ℚ) < (pyround (energy_base u get_oahu_environmental_factors) : ℚ) := by
      linarith
    exact_mod_cast hq
  have hhi : pyround (energy_base u get_oahu_environmental_factors) < (93:ℤ) := by
    have hq : (pyround (energy_base u get_oahu_environmental_factors) : ℚ) < 93 := by
      linarith
    exact_mod_cast hq
  have h20 : pyround (energy_base u get_oahu_environmental_factors + 20) =
      pyround (energy_base u get_oahu_environmental_factors) + 20 := by
    rw [show (20:ℚ) = ((20:ℤ):ℚ) by norm_num,
      pyround_add_int_even _ 20 (by norm_num)]
  rw [h20]
  have hclamp : s = pyround (energy_base u get_oahu_environmental_factors) := by
    rw [← hs, clamp100_of_bounds (by omega) (by omega)]
  rw [hclamp]
  congr 1
  unfold clamp100
  omega

/-- Witness for the amended C4 at `billFortyProfile`: the score goes
from 92 to min 100 (92 + 20) = 100. -/
theorem solar_switch_adds_twenty_up_to_cap_witness :
    ValidProfile billFortyProfile ∧
    billFortyProfile.renewable_energy = Renewable.no ∧
    calculate_energy_impact billFortyProfile get_oahu_environmental_factors = some 92 ∧
    calculate_energy_impact { billFortyProfile with renewable_energy := Renewable.solar }
      get_oahu_environmental_factors = some (min 100 (92 + 20)) :=
  ⟨by with_unfolding_all decide, by with_unfolding_all decide, by with_unfolding_all decide,
    solar_switch_adds_twenty_up_to_cap billFortyProfile (by with_unfolding_all decide)
      (by with_unfolding_all decide) 92 (by with_unfolding_all decide)⟩

lemma abs_div_sub_one_le {S o : ℚ} (ho : 0 < o) (h : |S - o| ≤ 1/2) :
    |S / o - 1| ≤ 1 / (2 * o) := by
  have h1 : S / o - 1 = (S - o) / o := by
    field_simp
  rw [h1, abs_div, abs_of_pos ho]
  calc |S - o| / o ≤ (1/2) / o := by gcongr
    _ = 1 / (2 * o) := div_div 1 2 o

lemma breakdown_sum_formula (u : UserProfile) (es : ℤ) :
    breakdown_sum (mkImpactResult u es) =
      overall_raw_val u es / ((pyround (overall_raw_val u es) : ℤ) : ℚ) := by
  simp only [breakdown_sum, mkImpactResult]
  rw [div_add_div_same, div_add_div_same, div_add_div_same, div_add_div_same]
  congr 1
  unfold overall_raw_val
  ring

/-- Claim C2 amended: whenever `overall_score > 0`, the five
`impact_breakdown` values sum exactly to (weighted score sum) /
`overall_score`, which is within 1/(2 * overall_score) of 1.0 — at
worst 1/12, far looser than 1e-6; the deviation comes from rounding
the denominator to an integer. -/
theorem breakdown_sum_near_one (u : UserProfile) (hu : ValidProfile u) :
    ∃ r, calculate_impact u = some r ∧ 0 < r.overall_score ∧
      breakdown_sum r = overall_raw_val u r.energy_score / (r.overall_score : ℚ) ∧
      |breakdown_sum r - 1| ≤ 1 / (2 * (r.overall_score : ℚ)) := by
  obtain ⟨es, hes, himp, hlo, hhi⟩ := impact_of_valid u hu
  have hoq : (0:ℚ) < ((pyround (overall_raw_val u es) : ℤ) : ℚ) := by
    exact_mod_cast lt_of_lt_of_le (by norm_num) hlo
  refine ⟨mkImpactResult u es, himp, by simp only [mkImpactResult]; omega,
    breakdown_sum_formula u es, ?_⟩
  have hd1 := sub_half_le_pyround (overall_raw_val u es)
  have hd2 := pyround_le_add_half (overall_raw_val u es)
  have hover : ((mkImpactResult u es).overall_score : ℚ) =
      ((pyround (overall_raw_val u es) : ℤ) : ℚ) := by
    simp only [mkImpactResult]
  rw [hover, breakdown_sum_formula u es]
  exact abs_div_sub_one_le hoq (abs_le.mpr ⟨by linarith, by linarith⟩)

set_option maxRecDepth 8000 in
/-- Counterexample to claim C2 as stated: for the valid profile
`breakdownProfile` the weighted score sum is 77.2 but `overall_score`
rounds to 77, so the five breakdown shares sum to 386/385, about
1.0026 — farther from 1.0 than the claimed 1e-6 tolerance, even though
`overall_score > 0`. -/
theorem breakdown_sum_misses_tolerance :
    ValidProfile breakdownProfile ∧
    calculate_impact breakdownProfile = some (impactOf breakdownProfile) ∧
    0 < (impactOf breakdownProfile).overall_score ∧
    1/1000000 < |breakdown_sum (impactOf breakdownProfile) - 1| := by
  refine ⟨?_, ?_, ?_, ?_⟩ <;> with_unfolding_all decide

set_option maxRecDepth 8000 in
/-- Witness for the amended C2 at the form's default profile. -/
theorem breakdown_sum_near_one_witness :
    ValidProfile sampleProfile ∧
    (∃ r, calculate_impact sampleProfile = some r ∧ 0 < r.overall_score ∧
      breakdown_sum r = overall_raw_val sampleProfile r.energy_score / (r.overall_score : ℚ) ∧
      |breakdown_sum r - 1| ≤ 1 / (2 * (r.overall_score : ℚ))) :=
  ⟨by with_unfolding_all decide,
    breakdown_sum_near_one sampleProfile (by with_unfolding_all decide)⟩

set_option maxRecDepth 8000 in
/-- Counterexample to claim C3 as stated: `zeroOverallProfile` drives
all five category scores to 0, so `overall_score` is 0 — and
`calculate_impact` hits the `ZeroDivisionError` in the
`impact_breakdown` division (modelled as `none`) instead of returning
all-zero shares. -/
theorem zero_overall_returns_none_not_zero_shares :
    calculate_transport_impact zeroOverallProfile get_oahu_environmental_factors = 0 ∧
    calculate_energy_impact zeroOverallProfile get_oahu_environmental_factors = some 0 ∧
    calculate_water_impact zeroOverallProfile get_oahu_environmental_factors = 0 ∧
    calculate_waste_impact zeroOverallProfile get_oahu_environmental_factors = 0 ∧
    calculate_food_impact zeroOverallProfile get_oahu_environmental_factors = 0 ∧
    calculate_impact zeroOverallProfile = none := by
  refine ⟨?_, ?_, ?_, ?_, ?_, ?_⟩ <;> with_unfolding_all decide

/-- Claim C3 amended: when the five category scores make
`overall_score` equal to 0 (reachable only with out-of-range inputs),
`calculate_impact` performs the `impact_breakdown` division anyway and
raises `ZeroDivisionError` (modelled as `none`); it defines no all-zero
fallback shares.  For valid profiles `overall_score` is at least 6, so
the division never occurs. -/
theorem zero_overall_score_raises (u : UserProfile) (es : ℤ)
    (hes : calculate_energy_impact u get_oahu_environmental_factors = some es)
    (hz : pyround (overall_raw_val u es) = 0) :
    calculate_impact u = none :=
  calculate_impact_none_of_zero u es hes hz

set_option maxRecDepth 8000 in
/-- Witness for the amended C3 at `zeroOverallProfile`. -/
theorem zero_overall_score_raises_witness :
    calculate_energy_impact zeroOverallProfile get_oahu_environmental_factors = some 0 ∧
    pyround (overall_raw_val zeroOverallProfile 0) = 0 ∧
    calculate_impact zeroOverallProfile = none :=
  ⟨by with_unfolding_all decide, by with_unfolding_all decide,
    zero_overall_score_raises zeroOverallProfile 0 (by with_unfolding_all decide)
      (by with_unfolding_all decide)⟩

set_option maxRecDepth 8000 in
/-- Counterexample to claim C8 as stated: with `household_size = 0` the
engine does not reject the record before the calculators run — the
transport calculator computes an ordinary score (84), and the failure
is the raw `ZeroDivisionError` of `electricity_bill / household_size`
inside the energy calculator (modelled as `none`); no
`InvalidInputError` validation step exists.  With `household_size = -1`
the energy calculator even returns a score silently. -/
theorem zero_household_not_rejected_before_calculators :
    zeroHouseholdProfile.household_size = 0 ∧
    zeroHouseholdProfile.household_size < 1 ∧
    calculate_transport_impact zeroHouseholdProfile get_oahu_environmental_factors = 84 ∧
    calculate_energy_impact zeroHouseholdProfile get_oahu_environmental_factors = none ∧
    calculate_impact zeroHouseholdProfile = none ∧
    calculate_energy_impact { sampleProfile with household_size := -1 }
      get_oahu_environmental_factors = some 85 := by
  refine ⟨?_, ?_, ?_, ?_, ?_, ?_⟩ <;> with_unfolding_all decide

/-- Claim C8 amended: the engine performs no input validation; a record
with `household_size = 0` reaches the calculators and fails with the
raw division error inside `calculate_energy_impact` (modelled as
`none`), which propagates out of `calculate_impact`; negative household
sizes are silently accepted. -/
theorem zero_household_raw_division_in_energy (u : UserProfile)
    (h : u.household_size = 0) :
    calculate_energy_impact u get_oahu_environmental_factors = none ∧
    calculate_impact u = none := by
  have h1 : calculate_energy_impact u get_oahu_environmental_factors = none := by
    simp [calculate_energy_impact, h]
  exact ⟨h1, by simp [calculate_impact, h1]⟩

set_option maxRecDepth 8000 in
/-- Witness for the amended C8 at `zeroHouseholdProfile`. -/
theorem zero_household_raw_division_in_energy_witness :
    zeroHouseholdProfile.household_size = 0 ∧
    (calculate_energy_impact zeroHouseholdProfile get_oahu_environmental_factors = none ∧
     calculate_impact zeroHouseholdProfile = none) :=
  ⟨by with_unfolding_all decide,
    zero_household_raw_division_in_energy zeroHouseholdProfile (by with_unfolding_all decide)⟩

lemma areas_eq_spec (r : ImpactResult) :
    areas_for_improvement r = areas_for_improvement_spec r := by
  by_cases h1 : r.transport_score < 60 <;>
  by_cases h2 : r.energy_score < 60 <;>
  by_cases h3 : r.water_score < 60 <;>
  by_cases h4 : r.waste_score < 60 <;>
  by_cases h5 : r.food_score < 60 <;>
    simp [areas_for_improvement, areas_for_improvement_spec, category_order, category_score,
      first_minimum_category, h1, h2, h3, h4, h5] <;>
    split_ifs <;> first | rfl | omega

/-- Sample result with every score at least 60 and energy the unique
minimum. -/
def allGoodResult : ImpactResult :=
  { overall_score := 66
    transport_score := 70
    energy_score := 61
    water_score := 65
    waste_score := 66
    food_score := 67
    carbon_footprint := 0
    water_usage := 0
    waste_generation := 0
    impact_breakdown := { transport := 0, energy := 0, water := 0, waste := 0, food := 0 } }

/-- Claim C7: the improvement-area selector collects every category
scoring below 60 in the fixed order transport, energy, water, waste,
food; when that set is empty it selects exactly the first category (in
the same order) holding the minimum score; in particular, when all
scores are at least 60 and energy is the unique minimum, the list is
exactly `["energy"]`. -/
theorem improvement_areas_selector (r : ImpactResult) :
    areas_for_improvement r = areas_for_improvement_spec r ∧
    (60 ≤ r.transport_score → 60 ≤ r.energy_score → 60 ≤ r.water_score →
     60 ≤ r.waste_score → 60 ≤ r.food_score →
     r.energy_score < r.transport_score → r.energy_score < r.water_score →
     r.energy_score < r.waste_score → r.energy_score < r.food_score →
     areas_for_improvement r = ["energy"]) := by
  refine ⟨areas_eq_spec r, fun g1 g2 g3 g4 g5 l1 l2 l3 l4 => ?_⟩
  rw [areas_eq_spec r]
  have hfm : first_minimum_category r = "energy" := by
    unfold first_minimum_category
    rw [if_neg (fun hc => absurd hc.1 (not_le.mpr l1)),
      if_pos ⟨le_of_lt l2, le_of_lt l3, le_of_lt l4⟩]
  unfold areas_for_improvement_spec
  have hbad : List.filter (fun c => decide (category_score r c < 60)) category_order = [] := by
    simp only [category_order, List.filter_cons, List.filter_nil]
    simp [category_score, not_lt.mpr g1, not_lt.mpr g2, not_lt.mpr g3,
      not_lt.mpr g4, not_lt.mpr g5]
  rw [hbad, if_pos rfl, hfm]

/-- Witness for C7 at `allGoodResult`. -/
theorem improvement_areas_selector_witness :
    areas_for_improvement allGoodResult = areas_for_improvement_spec allGoodResult ∧
    areas_for_improvement allGoodResult = ["energy"] :=
  ⟨(improvement_areas_selector allGoodResult).1,
    (improvement_areas_selector allGoodResult).2 (by decide) (by decide) (by decide)
      (by decide) (by decide) (by decide) (by decide) (by decide) (by decide)⟩
